import Mathlib

/-!
Shallow embedding of `task_simplifier.py` (Open-AutoGLM-GUI).

The embedding follows the source file closely:
* Python scalar values that occur in provider configurations are modeled by
  `PyValue` (strings, ints, floats, bools, None).  Container values
  (lists / dicts) inside a configuration are not modeled; no claim needs them.
* Python floats are modeled as exact fractions (`PyFloat`); the only float
  operations the source performs are comparisons against the integer bounds
  0 and 2, for which the exact-fraction model agrees with IEEE semantics for
  all values that are not within one ulp of a bound.
* Python string operations `strip` / `upper` / `lower` / `startswith` / `in`
  are re-implemented on `List Char` so that every definition evaluates inside
  the kernel.  `strip`/`upper`/`lower` handle the ASCII range (plus the ASCII
  whitespace set for `strip`); the configuration strings the source
  manipulates are ASCII or are compared only for emptiness.
* `int(x)` / `float(x)` follow CPython on the modeled value space; for
  strings the accepted grammar is sign + digits (+ fraction for float).
  CPython additionally accepts underscores / exponents / inf / nan, which no
  claim exercises.
* Network adapters (`_call_deepseek`, `_call_wenxin`, ...) are functions of
  the wire outcome (`AdapterOutcome`): a 200 response with the successfully
  extracted payload, a non-200 response, a timeout, or a raised exception
  (carrying `str(e)`).  A 200 response whose envelope makes the extraction
  expression raise is represented as a `raised` outcome, which the source
  routes to the same generic `except` handler.
* `async` functions are embedded as pure functions; `asyncio.gather`
  preserves argument order, so the multi-provider fan-out is a `List.map`.
  The adapter layer reached after validation is abstracted as an oracle
  argument `call`, since its value depends on the network.
-/

/-- Python AI platform enumeration `AIProvider` (declaration order as in the
source). -/
inductive AIProvider where
  | deepseek
  | doubao
  | yuanbao
  | openai
  | gemini
  | claude
  | glm
  | wenxin
  | tongyi
deriving DecidableEq

/-- The `.value` string of each `AIProvider` member. -/
def AIProvider.value : AIProvider → String
  | .deepseek => "deepseek"
  | .doubao => "doubao"
  | .yuanbao => "yuanbao"
  | .openai => "openai"
  | .gemini => "gemini"
  | .claude => "claude"
  | .glm => "glm"
  | .wenxin => "wenxin"
  | .tongyi => "tongyi"

/-- All nine providers, in enumeration order (`for provider in AIProvider`). -/
def allProviders : List AIProvider :=
  [.deepseek, .doubao, .yuanbao, .openai, .gemini, .claude, .glm, .wenxin, .tongyi]

/-- Exact-fraction model of a Python float.  Every float the source
manipulates (defaults `0.1`, bounds `0` and `2`, parsed decimals) is an exact
decimal fraction, so comparisons agree with CPython. -/
structure PyFloat where
  num : Int
  den : Nat
deriving DecidableEq

/-- Python scalar values that can appear in a configuration dictionary. -/
inductive PyValue where
  | pstr (s : String)
  | pint (n : Int)
  | pfloat (q : PyFloat)
  | pbool (b : Bool)
  | pnone
deriving DecidableEq

/-- The CPython type name of a modeled value (used in `AttributeError`
messages). -/
def pyTypeName : PyValue → String
  | .pstr _ => "str"
  | .pint _ => "int"
  | .pfloat _ => "float"
  | .pbool _ => "bool"
  | .pnone => "NoneType"

/-- ASCII whitespace stripped by Python `str.strip()`. -/
def pyIsSpace (c : Char) : Bool := [' ', '\t', '\n', '\r', '\x0b', '\x0c'].contains c

/-- Python `str.strip()` (ASCII whitespace; the source never strips
non-ASCII whitespace). -/
def pyStrip (s : String) : String :=
  String.mk (((s.data.dropWhile pyIsSpace).reverse.dropWhile pyIsSpace).reverse)

/-- Python `s.startswith(pre)`. -/
def pyStartsWith (s pre : String) : Bool := pre.data.isPrefixOf s.data

/-- Helper for `pyContains`: does `sub` occur inside the list? -/
def containsSubList (sub : List Char) : List Char → Bool
  | [] => sub.isEmpty
  | c :: t => sub.isPrefixOf (c :: t) || containsSubList sub t

/-- Python `sub in s` on strings. -/
def pyContains (s sub : String) : Bool := containsSubList sub.data s.data

/-- ASCII uppercase conversion of one character (Python `str.upper` restricted
to ASCII; provider names are ASCII). -/
def pyUpperChar (c : Char) : Char :=
  if 'a' ≤ c ∧ c ≤ 'z' then Char.ofNat (c.toNat - 32) else c

/-- Python `str.upper()` (ASCII range). -/
def pyUpper (s : String) : String := String.mk (s.data.map pyUpperChar)

/-- ASCII lowercase conversion of one character. -/
def pyLowerChar (c : Char) : Char :=
  if 'A' ≤ c ∧ c ≤ 'Z' then Char.ofNat (c.toNat + 32) else c

/-- Python `str.lower()` (ASCII range). -/
def pyLower (s : String) : String := String.mk (s.data.map pyLowerChar)

/-- Decimal digit to character. -/
def digitChar (n : Nat) : Char := Char.ofNat (48 + n)

/-- Fuel-driven decimal printer (fuel `n + 1` always suffices). -/
def natReprAux : Nat → Nat → List Char
  | 0, _ => []
  | fuel + 1, n => if n < 10 then [digitChar n] else natReprAux fuel (n / 10) ++ [digitChar (n % 10)]

/-- Decimal representation of a natural number (= CPython `str`). -/
def pyNatRepr (n : Nat) : String := String.mk (natReprAux (n + 1) n)

/-- Decimal representation of an integer (= CPython `str`). -/
def pyIntRepr (n : Int) : String :=
  if n < 0 then "-" ++ pyNatRepr n.natAbs else pyNatRepr n.natAbs

/-- Rendering of a modeled float.  CPython's float `repr` is not reproduced;
no claim inspects a message that interpolates a float. -/
def pyFloatRepr (q : PyFloat) : String := pyIntRepr q.num ++ "/" ++ pyNatRepr q.den

/-- Python `str(v)` on the modeled values (as used by f-string interpolation). -/
def pyToString : PyValue → String
  | .pstr s => s
  | .pint n => pyIntRepr n
  | .pfloat q => pyFloatRepr q
  | .pbool b => if b then "True" else "False"
  | .pnone => "None"

/-- Numeric value of a digit list. -/
def digitsVal (ds : List Char) : Nat := ds.foldl (fun a c => 10 * a + (c.toNat - 48)) 0

/-- Parses a non-empty all-digit list. -/
def natOfDigits? (ds : List Char) : Option Nat :=
  if ds ≠ [] ∧ ds.all Char.isDigit then some (digitsVal ds) else none

/-- CPython `int(s)` on a string: surrounding whitespace, optional sign,
digits.  (CPython additionally accepts underscores between digits; unused by
the claims.) -/
def parseIntPy (s : String) : Option Int :=
  match (pyStrip s).data with
  | '+' :: ds => (natOfDigits? ds).map (fun n => (n : Int))
  | '-' :: ds => (natOfDigits? ds).map (fun n => -(n : Int))
  | ds => (natOfDigits? ds).map (fun n => (n : Int))

/-- Splits a character list at the first `.`. -/
def splitDot : List Char → (List Char × Option (List Char))
  | [] => ([], none)
  | c :: t =>
    if c = '.' then ([], some t)
    else
      let p := splitDot t
      (c :: p.1, p.2)

/-- CPython `float(s)` on a string: sign + digits with optional fractional
part.  (Exponents, `inf`, `nan`, underscores are not modeled; unused by the
claims.) -/
def parseFloatPy (s : String) : Option PyFloat :=
  let t := pyStrip s
  let p : Bool × List Char :=
    match t.data with
    | '-' :: ds => (true, ds)
    | '+' :: ds => (false, ds)
    | ds => (false, ds)
  let signed : Nat → Nat → Option PyFloat := fun n d =>
    some ⟨if p.1 then -(n : Int) else (n : Int), d⟩
  match splitDot p.2 with
  | (a, none) =>
    match natOfDigits? a with
    | some n => signed n 1
    | none => none
  | (a, some b) =>
    if b.contains '.' then none
    else if a = [] ∧ b = [] then none
    else if a.all Char.isDigit ∧ b.all Char.isDigit then
      signed (digitsVal a * 10 ^ b.length + digitsVal b) (10 ^ b.length)
    else none

/-- Python `.strip()` is only defined on `str`; on any other value it raises
`AttributeError`.  `none` models the raise. -/
def pyStr? : PyValue → Option String
  | .pstr s => some s
  | _ => none

/-- Truncation of a fraction toward zero (CPython `int(float)`). -/
def pyTrunc (q : PyFloat) : Int :=
  if q.num < 0 then -((q.num.natAbs / q.den : Nat) : Int) else ((q.num.natAbs / q.den : Nat) : Int)

/-- CPython `int(v)`: `none` models a raised `ValueError`/`TypeError`. -/
def pyToInt : PyValue → Option Int
  | .pstr s => parseIntPy s
  | .pint n => some n
  | .pfloat q => some (pyTrunc q)
  | .pbool b => some (if b then 1 else 0)
  | .pnone => none

/-- CPython `float(v)`: `none` models a raised `ValueError`/`TypeError`. -/
def pyToFloat : PyValue → Option PyFloat
  | .pstr s => parseFloatPy s
  | .pint n => some ⟨n, 1⟩
  | .pfloat q => some q
  | .pbool b => some ⟨if b then 1 else 0, 1⟩
  | .pnone => none

/-- Strict comparison of modeled floats (`a < b`). -/
def PyFloat.ltb (a b : PyFloat) : Bool := a.num * (b.den : Int) < b.num * (a.den : Int)

/-- A provider configuration: a Python dict with string keys. -/
abbrev Config := List (String × PyValue)

/-- Python `config.get(key, default)`. -/
def cfgGet (c : Config) (k : String) (d : PyValue) : PyValue := (c.lookup k).getD d

/-- The dictionary returned by `_validate_config`: `{"valid": True}` on
success, `{"valid": False, "error": ..., "field": ...}` on failure. -/
structure ValidationResult where
  valid : Bool
  error : Option String
  field : Option String
deriving DecidableEq

/-- A failure dictionary of `_validate_config`. -/
def vfail (msg fld : String) : ValidationResult := ⟨false, some msg, some fld⟩

/-- The `str(e)` of the `AttributeError` raised by `.strip()` on a non-string
(CPython wording). -/
def stripAttrError (v : PyValue) : String :=
  "'" ++ pyTypeName v ++ "' object has no attribute 'strip'"

/-- Lines 46-90 of `_validate_config`: the `api_key` presence and per-provider
format checks.  `none` = passed.  A non-string `api_key` makes `.strip()`
raise; the enclosing `try` turns that into the `"unknown"`-field result
(lines 223-228). -/
def checkApiKey (p : AIProvider) (c : Config) : Option ValidationResult :=
  let v := cfgGet c "api_key" (PyValue.pstr "")
  match pyStr? v with
  | none => some (vfail ("配置验证异常: " ++ stripAttrError v) "unknown")
  | some raw =>
    let api_key := pyStrip raw
    if api_key = "" then
      some (vfail (p.value ++ "平台的API密钥为空，请设置有效的API密钥") "api_key")
    else
      match p with
      | .deepseek =>
        if !(pyStartsWith api_key "sk-") then
          some (vfail "DeepSeek API密钥格式错误，正确格式应为: sk-xxxxx" "api_key")
        else if api_key.length < 20 then
          some (vfail "DeepSeek API密钥长度不足，请检查是否完整" "api_key")
        else none
      | .openai =>
        if !(pyStartsWith api_key "sk-") then
          some (vfail "OpenAI API密钥格式错误，正确格式应为: sk-xxxxx" "api_key")
        else if api_key.length < 20 then
          some (vfail "OpenAI API密钥长度不足，请检查是否完整" "api_key")
        else none
      | .doubao =>
        if api_key.length < 16 then
          some (vfail "豆包API密钥长度不足，请检查是否完整" "api_key")
        else none
      | _ => none

/-- Lines 93-132 of `_validate_config`: `base_url` presence, scheme, and
per-provider substring checks. -/
def checkBaseUrl (p : AIProvider) (c : Config) : Option ValidationResult :=
  let v := cfgGet c "base_url" (PyValue.pstr "")
  match pyStr? v with
  | none => some (vfail ("配置验证异常: " ++ stripAttrError v) "unknown")
  | some raw =>
    let base_url := pyStrip raw
    if base_url = "" then
      some (vfail (p.value ++ "平台的接口地址为空，请设置正确的接口地址") "base_url")
    else if !(pyStartsWith base_url "http://" || pyStartsWith base_url "https://") then
      some (vfail ("接口地址格式错误，必须以http://或https://开头，当前地址: " ++ base_url) "base_url")
    else
      match p with
      | .deepseek =>
        if !(pyContains base_url "api.deepseek.com") then
          some (vfail ("DeepSeek接口地址不正确，正确地址应包含api.deepseek.com，当前地址: " ++ base_url) "base_url")
        else none
      | .openai =>
        if !(pyContains base_url "api.openai.com") then
          some (vfail ("OpenAI接口地址不正确，正确地址应包含api.openai.com，当前地址: " ++ base_url) "base_url")
        else none
      | .doubao =>
        if !(pyContains base_url "volcengine.com") then
          some (vfail ("豆包接口地址不正确，正确地址应包含volcengine.com，当前地址: " ++ base_url) "base_url")
        else none
      | _ => none

/-- Lines 135-168 of `_validate_config`: `model` presence and per-provider
naming checks. -/
def checkModel (p : AIProvider) (c : Config) : Option ValidationResult :=
  let v := cfgGet c "model" (PyValue.pstr "")
  match pyStr? v with
  | none => some (vfail ("配置验证异常: " ++ stripAttrError v) "unknown")
  | some raw =>
    let model := pyStrip raw
    if model = "" then
      some (vfail (p.value ++ "平台的模型名称为空，请选择有效的模型") "model")
    else
      match p with
      | .deepseek =>
        if !(["deepseek-chat", "deepseek-coder"].contains model) && !(pyStartsWith model "deepseek-") then
          some (vfail ("DeepSeek模型名称不正确，常用模型: deepseek-chat, deepseek-coder，当前模型: " ++ model) "model")
        else none
      | .openai =>
        if !(["gpt-3.5-turbo", "gpt-4", "gpt-4-turbo", "gpt-4o"].any (fun vm => pyStartsWith model vm)) then
          some (vfail ("OpenAI模型名称不正确，常用模型: gpt-3.5-turbo, gpt-4, gpt-4-turbo, gpt-4o，当前模型: " ++ model) "model")
        else none
      | .doubao =>
        if !(pyStartsWith model "ep-" || pyStartsWith model "doubao-") then
          some (vfail ("豆包模型名称不正确，应以ep-或doubao-开头，当前模型: " ++ model) "model")
        else none
      | _ => none

/-- Lines 170-185 of `_validate_config`: `timeout` parses as an integer in
[1, 300].  The inner `except (ValueError, TypeError)` branch is the parse
failure (`pyToInt = none`) and reports the original value. -/
def checkTimeout (c : Config) : Option ValidationResult :=
  let t := cfgGet c "timeout" (PyValue.pint 30)
  match pyToInt t with
  | some n =>
    if n < 1 ∨ 300 < n then
      some (vfail ("超时设置不合理，建议设置1-300秒之间，当前设置: " ++ pyIntRepr n ++ "秒") "timeout")
    else none
  | none => some (vfail ("超时设置格式错误，请输入数字，当前设置: " ++ pyToString t) "timeout")

/-- Lines 188-202 of `_validate_config`: `max_tokens` parses as an integer in
[1, 8000]. -/
def checkMaxTokens (c : Config) : Option ValidationResult :=
  let t := cfgGet c "max_tokens" (PyValue.pint 200)
  match pyToInt t with
  | some n =>
    if n < 1 ∨ 8000 < n then
      some (vfail ("最大Token数设置不合理，建议设置1-8000之间，当前设置: " ++ pyIntRepr n) "max_tokens")
    else none
  | none => some (vfail ("最大Token数格式错误，请输入数字，当前设置: " ++ pyToString t) "max_tokens")

/-- Lines 205-219 of `_validate_config`: `temperature` parses as a float in
[0, 2]. -/
def checkTemperature (c : Config) : Option ValidationResult :=
  let t := cfgGet c "temperature" (PyValue.pfloat ⟨1, 10⟩)
  match pyToFloat t with
  | some q =>
    if PyFloat.ltb q ⟨0, 1⟩ ∨ PyFloat.ltb ⟨2, 1⟩ q then
      some (vfail ("温度参数设置不合理，应设置0-2之间，当前设置: " ++ pyFloatRepr q) "temperature")
    else none
  | none => some (vfail ("温度参数格式错误，请输入数字，当前设置: " ++ pyToString t) "temperature")

/-- `TaskSimplifier._validate_config` (lines 38-228): the checks run in source
order, short-circuiting on the first failure; success returns
`{"valid": True}`. -/
def validateConfig (p : AIProvider) (c : Config) : ValidationResult :=
  match checkApiKey p c with
  | some r => r
  | none =>
    match checkBaseUrl p c with
    | some r => r
    | none =>
      match checkModel p c with
      | some r => r
      | none =>
        match checkTimeout c with
        | some r => r
        | none =>
          match checkMaxTokens c with
          | some r => r
          | none =>
            match checkTemperature c with
            | some r => r
            | none => ⟨true, none, none⟩

/-- The uniform result dictionary of one provider attempt.  Keys that a given
code path omits are `none`; `success` and `simplified_task` are present on
every path.  `usage` objects are modeled as integer-valued maps (the only
shape the vendors return). -/
structure CallResult where
  success : Bool
  provider : Option String
  simplified_task : String
  error : Option String
  field : Option String
  usage : Option (List (String × Int))
deriving DecidableEq

/-- The dictionary returned by `simplify_task_multiple_providers`: a
`CallResult` carrying the `all_results` list.  (In the source the winner dict
is mutated in place to add the key.) -/
structure AggResult where
  success : Bool
  provider : Option String
  simplified_task : String
  error : Option String
  field : Option String
  usage : Option (List (String × Int))
  all_results : List CallResult
deriving DecidableEq

/-- `best_result["all_results"] = results` (line 363): the winner dict with
the full result list attached. -/
def CallResult.withAll (r : CallResult) (rs : List CallResult) : AggResult :=
  ⟨r.success, r.provider, r.simplified_task, r.error, r.field, r.usage, rs⟩

/-- How one adapter's awaited network interaction resolved.  `http200` carries
the successfully extracted payload of a 200 response; a 200 response whose
envelope makes the extraction raise is a `raised` outcome (the source lands
in the same generic `except` handler). -/
inductive AdapterOutcome (β : Type) where
  | http200 (body : β)
  | httpErr (status : Nat) (text : String)
  | timedOut
  | raised (msg : String)
deriving DecidableEq

/-- Payload of a deepseek/doubao/openai-shaped 200 response:
`result["choices"][0]["message"]["content"]` and `result.get("usage", {})`. -/
structure ChatBody where
  content : String
  usage : List (String × Int)
deriving DecidableEq

/-- Payload of a wenxin 200 response: the optional `result` field
(`result.get("result", "")` defaults a missing field to `""`) and
`result.get("usage", {})`. -/
structure WenxinBody where
  resultOpt : Option String
  usage : List (String × Int)
deriving DecidableEq

/-- `TaskSimplifier._call_deepseek` (lines 393-475) as a function of the wire
outcome. -/
def callDeepseek (task : String) (cfg : Config) (o : AdapterOutcome ChatBody) : CallResult :=
  match o with
  | .http200 body =>
    ⟨true, some "deepseek", pyStrip body.content, none, none, some body.usage⟩
  | .httpErr st text =>
    ⟨false, some "deepseek", task, some ("API调用失败 (" ++ pyNatRepr st ++ "): " ++ text), none, none⟩
  | .timedOut =>
    ⟨false, some "deepseek", task,
      some ("DeepSeek API请求超时(" ++ pyToString (cfgGet cfg "timeout" (PyValue.pint 30)) ++ "秒)，请检查网络或增加timeout设置"),
      none, none⟩
  | .raised msg =>
    if pyContains msg "SSL" || pyContains (pyLower msg) "certificate" then
      ⟨false, some "deepseek", task, some ("DeepSeek SSL证书验证失败: " ++ msg), none, none⟩
    else if pyContains msg "DNS" || pyContains (pyLower msg) "resolve" then
      ⟨false, some "deepseek", task, some ("DeepSeek域名解析失败: " ++ msg), none, none⟩
    else
      ⟨false, some "deepseek", task, some ("DeepSeek API调用异常: " ++ msg), none, none⟩

/-- `TaskSimplifier._call_wenxin` (lines 712-778) as a function of the wire
outcome.  On a 200 response the extracted text is
`result.get("result", "").strip()`. -/
def callWenxin (task : String) (_cfg : Config) (o : AdapterOutcome WenxinBody) : CallResult :=
  match o with
  | .http200 body =>
    ⟨true, some "wenxin", pyStrip (body.resultOpt.getD ""), none, none, some body.usage⟩
  | .httpErr st text =>
    ⟨false, some "wenxin", task, some ("API调用失败 (" ++ pyNatRepr st ++ "): " ++ text), none, none⟩
  | .timedOut =>
    ⟨false, some "wenxin", task, some "请求超时，请检查网络连接或增加超时时间", none, none⟩
  | .raised msg =>
    ⟨false, some "wenxin", task, some msg, none, none⟩

/-- `TaskSimplifier._call_gemini` (lines 685-692): stub. -/
def callGemini (task : String) : CallResult :=
  ⟨false, some "gemini", task, some "Gemini API调用待实现", none, none⟩

/-- `TaskSimplifier.simplify_task_async` (lines 230-299).  The adapter layer
reached after successful validation (the dispatch on lines 263-288) is
abstracted by the oracle `call`, because each `_call_*` result depends on the
network; no claim constrains the dispatched value itself.  The configuration
store is the dict `configs` of the `TaskSimplifier` instance. -/
def simplify_task_async (call : AIProvider → String → Config → CallResult)
    (configs : AIProvider → Option Config) (task : String) (p : AIProvider) : CallResult :=
  match configs p with
  | none =>
    ⟨false, some p.value, task,
      some ("未找到" ++ p.value ++ "平台的配置，请在API配置页面添加配置"), none, none⟩
  | some cfg =>
    let validation := validateConfig p cfg
    if validation.valid then call p task cfg
    else ⟨false, some p.value, task, validation.error, validation.field, none⟩

/-- Python `min(successful_results, key=lambda x: len(x.get("simplified_task", "")))`
(line 362): `min` keeps the first element attaining the minimum key. -/
def pyMinByLen (r : CallResult) (rest : List CallResult) : CallResult :=
  rest.foldl (fun best x => if x.simplified_task.length < best.simplified_task.length then x else best) r

/-- Lines 358-382 of `simplify_task_multiple_providers`: selection of the best
result, or the combined-error dictionary when every provider failed. -/
def aggregateResults (task : String) (results : List CallResult) : AggResult :=
  match results.filter (fun r => r.success) with
  | r :: rest => CallResult.withAll (pyMinByLen r rest) results
  | [] =>
    let error_details := results.map
      (fun r => "• " ++ pyUpper (r.provider.getD "unknown") ++ ": " ++ (r.error.getD "未知错误"))
    let error_summary :=
      "所有AI平台都失败了:\n\n" ++ String.intercalate "\n" (error_details.take 3)
    let error_summary :=
      if 3 < error_details.length then
        error_summary ++ ("\n\n还有" ++ pyNatRepr (error_details.length - 3) ++ "个平台的错误...")
      else error_summary
    ⟨false, none, task, some error_summary, none, none, results⟩

/-- `TaskSimplifier.simplify_task_multiple_providers` (lines 328-390):
`asyncio.gather` resolves the per-provider calls in argument order; the
`isinstance(result, Exception)` branch (lines 347-354) is unreachable for the
total modeled calls. -/
def simplify_task_multiple_providers (call : AIProvider → String → Config → CallResult)
    (configs : AIProvider → Option Config) (task : String) (providers : List AIProvider) : AggResult :=
  aggregateResults task (providers.map (fun p => simplify_task_async call configs task p))

/-- `TaskSimplifierManager.get_provider_status` (lines 924-934).  The stored
value is the Python expression
`provider in configs and configs[provider].get("api_key")`: `and` yields its
second operand whenever the first is truthy, so a configured provider maps to
the raw `api_key` value (or `None` when the key is absent), not to a bool. -/
def get_provider_status (configs : AIProvider → Option Config) : List (String × PyValue) :=
  allProviders.map (fun p =>
    (p.value,
      match configs p with
      | none => PyValue.pbool false
      | some cfg => (cfg.lookup "api_key").getD PyValue.pnone))

lemma str_mk_append (a b : List Char) : String.mk a ++ String.mk b = String.mk (a ++ b) := rfl

lemma str_ne_empty_left (s t : String) (h : s ≠ "") : s ++ t ≠ "" := by
  cases s with
  | mk a =>
    cases t with
    | mk b =>
      intro hc
      have hd : a ++ b = ([] : List Char) := congrArg String.data hc
      rcases List.append_eq_nil.mp hd with ⟨ha, _⟩
      exact h (congrArg String.mk ha)

lemma str_ne_empty_right (s t : String) (h : t ≠ "") : s ++ t ≠ "" := by
  cases s with
  | mk a =>
    cases t with
    | mk b =>
      intro hc
      have hd : a ++ b = ([] : List Char) := congrArg String.data hc
      rcases List.append_eq_nil.mp hd with ⟨_, hb⟩
      exact h (congrArg String.mk hb)

lemma str_append_assoc (a b c : String) : a ++ b ++ c = a ++ (b ++ c) := by
  cases a with
  | mk a =>
    cases b with
    | mk b =>
      cases c with
      | mk c => exact congrArg String.mk (List.append_assoc a b c)

lemma str_append_ne_of_ne (p₁ p₂ s t : String) (hlen : p₁.length = p₂.length)
    (hne : p₁ ≠ p₂) : p₁ ++ s ≠ p₂ ++ t := by
  cases p₁ with
  | mk a =>
    cases p₂ with
    | mk b =>
      cases s with
      | mk u =>
        cases t with
        | mk v =>
          intro hc
          have hd : a ++ u = b ++ v := congrArg String.data hc
          have hl : a.length = b.length := hlen
          exact hne (congrArg String.mk (List.append_inj hd hl).1)

lemma pyMinByLen_cons (r x : CallResult) (xs : List CallResult) :
    pyMinByLen r (x :: xs) =
      pyMinByLen (if x.simplified_task.length < r.simplified_task.length then x else r) xs := rfl

/-- Python `min` with a key function returns the first element attaining the
minimal key: the input splits as `l₁ ++ min :: l₂` with every element of `l₁`
strictly longer and every element of `l₂` at least as long. -/
lemma pyMinByLen_split (rest : List CallResult) : ∀ r : CallResult,
    ∃ l₁ l₂, r :: rest = l₁ ++ pyMinByLen r rest :: l₂
      ∧ (∀ x ∈ l₁, (pyMinByLen r rest).simplified_task.length < x.simplified_task.length)
      ∧ (∀ x ∈ l₂, (pyMinByLen r rest).simplified_task.length ≤ x.simplified_task.length) := by
  induction rest with
  | nil =>
    intro r
    exact ⟨[], [], rfl, by simp, by simp⟩
  | cons x xs ih =>
    intro r
    rw [pyMinByLen_cons]
    by_cases hc : x.simplified_task.length < r.simplified_task.length
    · rw [if_pos hc]
      obtain ⟨l₁, l₂, heq, h₁, h₂⟩ := ih x
      have hmx : (pyMinByLen x xs).simplified_task.length ≤ x.simplified_task.length := by
        cases l₁ with
        | nil =>
          simp only [List.nil_append] at heq
          injection heq with h1 _
          rw [← h1]
        | cons y l₁' =>
          have heq' : x :: xs = y :: (l₁' ++ pyMinByLen x xs :: l₂) := by simpa using heq
          injection heq' with hy _
          have hh := h₁ y (by simp)
          rw [← hy] at hh
          exact Nat.le_of_lt hh
      refine ⟨r :: l₁, l₂, ?_, ?_, h₂⟩
      · rw [List.cons_append, ← heq]
      · intro z hz
        rcases List.mem_cons.mp hz with hz | hz
        · subst hz
          exact Nat.lt_of_le_of_lt hmx hc
        · exact h₁ z hz
    · rw [if_neg hc]
      have hrx : r.simplified_task.length ≤ x.simplified_task.length := Nat.le_of_not_lt hc
      obtain ⟨l₁, l₂, heq, h₁, h₂⟩ := ih r
      cases l₁ with
      | nil =>
        simp only [List.nil_append] at heq
        injection heq with h1 h2
        refine ⟨[], x :: xs, by simp [← h1], by simp, ?_⟩
        intro z hz
        rcases List.mem_cons.mp hz with hz | hz
        · subst hz
          rw [← h1]
          exact hrx
        · exact h₂ z (h2 ▸ hz)
      | cons y l₁' =>
        have heq' : r :: xs = y :: (l₁' ++ pyMinByLen r xs :: l₂) := by simpa using heq
        injection heq' with hy hxs
        have hmr : (pyMinByLen r xs).simplified_task.length < r.simplified_task.length := by
          have hh := h₁ y (by simp)
          rw [← hy] at hh
          exact hh
        refine ⟨r :: x :: l₁', l₂, by rw [List.cons_append, List.cons_append, ← hxs], ?_, h₂⟩
        intro z hz
        rcases List.mem_cons.mp hz with hz | hz
        · subst hz
          exact hmr
        rcases List.mem_cons.mp hz with hz | hz
        · subst hz
          exact Nat.lt_of_lt_of_le hmr hrx
        · exact h₁ z (by simp [hz])

lemma checkApiKey_sound (p : AIProvider) (c : Config) (r : ValidationResult)
    (h : checkApiKey p c = some r) : ∃ m f, r = vfail m f ∧ m ≠ "" := by
  simp only [checkApiKey] at h
  repeat' split at h
  all_goals try exact Option.noConfusion h
  all_goals injection h with h1
  all_goals subst h1
  all_goals refine ⟨_, _, rfl, ?_⟩
  all_goals first
    | exact str_ne_empty_left _ _ (by decide)
    | exact str_ne_empty_right _ _ (by decide)
    | decide

lemma checkBaseUrl_sound (p : AIProvider) (c : Config) (r : ValidationResult)
    (h : checkBaseUrl p c = some r) : ∃ m f, r = vfail m f ∧ m ≠ "" := by
  simp only [checkBaseUrl] at h
  repeat' split at h
  all_goals try exact Option.noConfusion h
  all_goals injection h with h1
  all_goals subst h1
  all_goals refine ⟨_, _, rfl, ?_⟩
  all_goals first
    | exact str_ne_empty_left _ _ (by decide)
    | exact str_ne_empty_right _ _ (by decide)
    | decide

lemma checkModel_sound (p : AIProvider) (c : Config) (r : ValidationResult)
    (h : checkModel p c = some r) : ∃ m f, r = vfail m f ∧ m ≠ "" := by
  simp only [checkModel] at h
  repeat' split at h
  all_goals try exact Option.noConfusion h
  all_goals injection h with h1
  all_goals subst h1
  all_goals refine ⟨_, _, rfl, ?_⟩
  all_goals first
    | exact str_ne_empty_left _ _ (by decide)
    | exact str_ne_empty_right _ _ (by decide)
    | decide

lemma checkTimeout_sound (c : Config) (r : ValidationResult)
    (h : checkTimeout c = some r) : ∃ m f, r = vfail m f ∧ m ≠ "" := by
  simp only [checkTimeout] at h
  repeat' split at h
  all_goals try exact Option.noConfusion h
  all_goals injection h with h1
  all_goals subst h1
  all_goals refine ⟨_, _, rfl, ?_⟩
  all_goals first
    | exact str_ne_empty_left _ _ (str_ne_empty_left _ _ (by decide))
    | exact str_ne_empty_left _ _ (by decide)

lemma checkMaxTokens_sound (c : Config) (r : ValidationResult)
    (h : checkMaxTokens c = some r) : ∃ m f, r = vfail m f ∧ m ≠ "" := by
  simp only [checkMaxTokens] at h
  repeat' split at h
  all_goals try exact Option.noConfusion h
  all_goals injection h with h1
  all_goals subst h1
  all_goals refine ⟨_, _, rfl, ?_⟩
  all_goals first
    | exact str_ne_empty_left _ _ (str_ne_empty_left _ _ (by decide))
    | exact str_ne_empty_left _ _ (by decide)

lemma checkTemperature_sound (c : Config) (r : ValidationResult)
    (h : checkTemperature c = some r) : ∃ m f, r = vfail m f ∧ m ≠ "" := by
  simp only [checkTemperature] at h
  repeat' split at h
  all_goals try exact Option.noConfusion h
  all_goals injection h with h1
  all_goals subst h1
  all_goals refine ⟨_, _, rfl, ?_⟩
  all_goals first
    | exact str_ne_empty_left _ _ (str_ne_empty_left _ _ (by decide))
    | exact str_ne_empty_left _ _ (by decide)

lemma str_append_empty (s : String) : s ++ "" = s := by
  cases s with
  | mk a => exact congrArg String.mk (List.append_nil a)

/-- The aggregation step of `simplify_task_multiple_providers` is
`aggregateResults` applied to the gathered per-provider results. -/
lemma simplify_multiple_eq_aggregate (call : AIProvider → String → Config → CallResult)
    (configs : AIProvider → Option Config) (task : String) (providers : List AIProvider) :
    simplify_task_multiple_providers call configs task providers =
      aggregateResults task (providers.map (fun p => simplify_task_async call configs task p)) := rfl

/-- C1 (counterexample): the claim says no provider path can return
`success=true` with an empty `simplified_task`; but `_call_wenxin` on a 200
response whose JSON body has no `result` field returns `success=True` with
`simplified_task = "".strip() = ""`. -/
theorem c1_counterexample :
    (callWenxin "打开设置页面" [] (AdapterOutcome.http200 ⟨none, []⟩)).success = true ∧
    (callWenxin "打开设置页面" [] (AdapterOutcome.http200 ⟨none, []⟩)).simplified_task = "" := by
  decide

/-- C1 (amended): an adapter call that returns `success=true` came from a 200
response, and its `simplified_task` is the stripped extracted text of that
response — which is empty exactly when the extracted text strips to empty
(e.g. a wenxin body with a missing or whitespace `result` field), so
non-emptiness is not guaranteed. -/
theorem c1_success_is_stripped_extract (task : String) (cfg : Config)
    (ow : AdapterOutcome WenxinBody) (od : AdapterOutcome ChatBody) :
    ((callWenxin task cfg ow).success = true →
      ∃ b, ow = AdapterOutcome.http200 b ∧
        (callWenxin task cfg ow).simplified_task = pyStrip (b.resultOpt.getD "")) ∧
    ((callDeepseek task cfg od).success = true →
      ∃ b, od = AdapterOutcome.http200 b ∧
        (callDeepseek task cfg od).simplified_task = pyStrip b.content) := by
  constructor
  · intro h
    cases ow with
    | http200 b => exact ⟨b, rfl, rfl⟩
    | httpErr st text => simp [callWenxin] at h
    | timedOut => simp [callWenxin] at h
    | raised m => simp [callWenxin] at h
  · intro h
    cases od with
    | http200 b => exact ⟨b, rfl, rfl⟩
    | httpErr st text => simp [callDeepseek] at h
    | timedOut => simp [callDeepseek] at h
    | raised m =>
      simp only [callDeepseek] at h
      repeat' split at h
      all_goals simp_all

/-- C1 (witness for the amended theorem): concrete 200 responses for wenxin
and deepseek, with the hypotheses discharged by evaluation. -/
theorem c1_amended_witness :
    ((callWenxin "t" [] (AdapterOutcome.http200 ⟨some " 打开微信 ", []⟩)).success = true) ∧
    (∃ b, (AdapterOutcome.http200 (⟨some " 打开微信 ", []⟩ : WenxinBody)) = AdapterOutcome.http200 b ∧
      (callWenxin "t" [] (AdapterOutcome.http200 ⟨some " 打开微信 ", []⟩)).simplified_task
        = pyStrip (b.resultOpt.getD "")) ∧
    ((callDeepseek "t" [] (AdapterOutcome.http200 ⟨" 整理桌面 ", []⟩)).success = true) ∧
    (∃ b, (AdapterOutcome.http200 (⟨" 整理桌面 ", []⟩ : ChatBody)) = AdapterOutcome.http200 b ∧
      (callDeepseek "t" [] (AdapterOutcome.http200 ⟨" 整理桌面 ", []⟩)).simplified_task
        = pyStrip b.content) :=
  ⟨by decide,
   (c1_success_is_stripped_extract "t" [] (AdapterOutcome.http200 ⟨some " 打开微信 ", []⟩)
      (AdapterOutcome.http200 ⟨" 整理桌面 ", []⟩)).1 (by decide),
   by decide,
   (c1_success_is_stripped_extract "t" [] (AdapterOutcome.http200 ⟨some " 打开微信 ", []⟩)
      (AdapterOutcome.http200 ⟨" 整理桌面 ", []⟩)).2 (by decide)⟩

/-- C2: when at least one per-provider CallResult has `success=true`,
`simplify_task_multiple_providers` (whose selection step is
`aggregateResults`) returns the successful result with the shortest
`simplified_task`; on ties the earliest in input order wins (every earlier
successful result is strictly longer, every later one at least as long), and
the winner carries `all_results` equal to the full input-order result list. -/
theorem c2_selects_shortest_success (task : String) (rs : List CallResult)
    (hne : rs.filter (fun r => r.success) ≠ []) :
    ∃ l₁ w l₂,
      rs.filter (fun r => r.success) = l₁ ++ w :: l₂
      ∧ (∀ x ∈ l₁, w.simplified_task.length < x.simplified_task.length)
      ∧ (∀ x ∈ l₂, w.simplified_task.length ≤ x.simplified_task.length)
      ∧ aggregateResults task rs = CallResult.withAll w rs := by
  cases hf : rs.filter (fun r => r.success) with
  | nil => exact absurd hf hne
  | cons r rest =>
    obtain ⟨l₁, l₂, heq, h₁, h₂⟩ := pyMinByLen_split rest r
    refine ⟨l₁, pyMinByLen r rest, l₂, heq, h₁, h₂, ?_⟩
    simp only [aggregateResults, hf]

/-- A three-result sample for the C2 witness: one failure and two successes
with `simplified_task` lengths 12 and 30 (the lengths used by the spec's own
example). -/
def c2rs : List CallResult :=
  [⟨false, some "doubao", "原始任务描述", some "超时", none, none⟩,
   ⟨true, some "deepseek", "abcdefghijkl", none, none, some []⟩,
   ⟨true, some "openai", "abcdefghijklmnopqrstuvwxyz1234", none, none, some []⟩]

/-- C2 (witness): on `c2rs` the length-12 success wins and carries the full
list. -/
theorem c2_witness :
    c2rs.filter (fun r => r.success) ≠ [] ∧
    (∃ l₁ w l₂,
      c2rs.filter (fun r => r.success) = l₁ ++ w :: l₂
      ∧ (∀ x ∈ l₁, w.simplified_task.length < x.simplified_task.length)
      ∧ (∀ x ∈ l₂, w.simplified_task.length ≤ x.simplified_task.length)
      ∧ aggregateResults "整理桌面" c2rs = CallResult.withAll w c2rs) :=
  ⟨by decide, c2_selects_shortest_success "整理桌面" c2rs (by decide)⟩

/-- C3: when every per-provider CallResult has `success=false`, the aggregate
result is a failure carrying the original task, the full result list, and an
error message whose bullet lines are exactly the first three providers'
errors in input order, with the "还有 N-3 个平台的错误..." suffix appended
exactly when N > 3. -/
theorem c3_all_failed_summary (task : String) (rs : List CallResult)
    (hall : rs.filter (fun r => r.success) = []) :
    aggregateResults task rs =
      ⟨false, none, task,
        some ("所有AI平台都失败了:\n\n"
          ++ String.intercalate "\n"
              ((rs.map (fun r =>
                  "• " ++ pyUpper (r.provider.getD "unknown") ++ ": " ++ (r.error.getD "未知错误"))).take 3)
          ++ (if 3 < rs.length then "\n\n还有" ++ pyNatRepr (rs.length - 3) ++ "个平台的错误..." else "")),
        none, none, rs⟩ := by
  simp only [aggregateResults, hall, List.length_map]
  by_cases h3 : 3 < rs.length
  · simp [h3]
  · simp [h3, str_append_empty]

/-- Four failing results for the C3 witness (N = 4 > 3 exercises the
suffix). -/
def c3rs : List CallResult :=
  [⟨false, some "deepseek", "任务", some "e1", none, none⟩,
   ⟨false, some "openai", "任务", some "e2", none, none⟩,
   ⟨false, some "glm", "任务", some "e3", none, none⟩,
   ⟨false, some "wenxin", "任务", some "e4", none, none⟩]

/-- C3 (witness): with four failures the message lists the first three errors
and the "1 more" suffix. -/
theorem c3_witness :
    c3rs.filter (fun r => r.success) = [] ∧
    aggregateResults "任务" c3rs =
      ⟨false, none, "任务",
        some ("所有AI平台都失败了:\n\n"
          ++ String.intercalate "\n"
              ((c3rs.map (fun r =>
                  "• " ++ pyUpper (r.provider.getD "unknown") ++ ": " ++ (r.error.getD "未知错误"))).take 3)
          ++ (if 3 < c3rs.length then "\n\n还有" ++ pyNatRepr (c3rs.length - 3) ++ "个平台的错误..." else "")),
        none, none, c3rs⟩ :=
  ⟨by decide, c3_all_failed_summary "任务" c3rs (by decide)⟩

/-- C4: `_validate_config` always returns a result dictionary: every
`valid=false` result carries a non-empty `error` together with a `field`, and
the one runtime exception the checks can raise on the modeled value space —
`.strip()` on a non-string `api_key` — is converted by the enclosing `try`
into `{valid: false, error: "配置验证异常: ...", field: "unknown"}`. -/
theorem c4_validator_never_raises (p : AIProvider) (c : Config) :
    ((validateConfig p c).valid = false →
      ∃ m f, validateConfig p c = ⟨false, some m, some f⟩ ∧ m ≠ "") ∧
    (∀ v, c.lookup "api_key" = some v → pyStr? v = none →
      validateConfig p c = ⟨false, some ("配置验证异常: " ++ stripAttrError v), some "unknown"⟩) := by
  constructor
  · intro hval
    cases h1 : checkApiKey p c with
    | some r1 =>
      obtain ⟨m, f, hr, hm⟩ := checkApiKey_sound p c r1 h1
      exact ⟨m, f, by simp [validateConfig, h1, hr, vfail], hm⟩
    | none =>
      cases h2 : checkBaseUrl p c with
      | some r2 =>
        obtain ⟨m, f, hr, hm⟩ := checkBaseUrl_sound p c r2 h2
        exact ⟨m, f, by simp [validateConfig, h1, h2, hr, vfail], hm⟩
      | none =>
        cases h3 : checkModel p c with
        | some r3 =>
          obtain ⟨m, f, hr, hm⟩ := checkModel_sound p c r3 h3
          exact ⟨m, f, by simp [validateConfig, h1, h2, h3, hr, vfail], hm⟩
        | none =>
          cases h4 : checkTimeout c with
          | some r4 =>
            obtain ⟨m, f, hr, hm⟩ := checkTimeout_sound c r4 h4
            exact ⟨m, f, by simp [validateConfig, h1, h2, h3, h4, hr, vfail], hm⟩
          | none =>
            cases h5 : checkMaxTokens c with
            | some r5 =>
              obtain ⟨m, f, hr, hm⟩ := checkMaxTokens_sound c r5 h5
              exact ⟨m, f, by simp [validateConfig, h1, h2, h3, h4, h5, hr, vfail], hm⟩
            | none =>
              cases h6 : checkTemperature c with
              | some r6 =>
                obtain ⟨m, f, hr, hm⟩ := checkTemperature_sound c r6 h6
                exact ⟨m, f, by simp [validateConfig, h1, h2, h3, h4, h5, h6, hr, vfail], hm⟩
              | none =>
                have hv : validateConfig p c = ⟨true, none, none⟩ := by
                  simp [validateConfig, h1, h2, h3, h4, h5, h6]
                rw [hv] at hval
                simp at hval
  · intro v hv hs
    have hk : checkApiKey p c =
        some (vfail ("配置验证异常: " ++ stripAttrError v) "unknown") := by
      simp [checkApiKey, cfgGet, hv, hs]
    simp [validateConfig, hk, vfail]

/-- C4 (witness): a config whose `api_key` is `None` makes `.strip()` raise;
the result is the converted `"unknown"`-field failure with a non-empty
error. -/
theorem c4_witness :
    ((validateConfig AIProvider.glm [("api_key", PyValue.pnone)]).valid = false ∧
      ∃ m f, validateConfig AIProvider.glm [("api_key", PyValue.pnone)] =
        ⟨false, some m, some f⟩ ∧ m ≠ "") ∧
    validateConfig AIProvider.glm [("api_key", PyValue.pnone)] =
      ⟨false, some ("配置验证异常: " ++ stripAttrError PyValue.pnone), some "unknown"⟩ :=
  ⟨⟨by decide, (c4_validator_never_raises AIProvider.glm [("api_key", PyValue.pnone)]).1 (by decide)⟩,
   (c4_validator_never_raises AIProvider.glm [("api_key", PyValue.pnone)]).2
     PyValue.pnone (by decide) (by decide)⟩

/-- C5: the `api_key` presence check runs first, so for every provider and
every configuration whose `api_key` is missing (the `get` default is `""`),
empty, or whitespace-only, `_validate_config` short-circuits to
`valid=false` with `field="api_key"` regardless of every other field. -/
theorem c5_empty_api_key_short_circuits (p : AIProvider) (c : Config) (s : String)
    (hk : cfgGet c "api_key" (PyValue.pstr "") = PyValue.pstr s)
    (hs : pyStrip s = "") :
    validateConfig p c =
      ⟨false, some (p.value ++ "平台的API密钥为空，请设置有效的API密钥"), some "api_key"⟩ := by
  have hck : checkApiKey p c =
      some (vfail (p.value ++ "平台的API密钥为空，请设置有效的API密钥") "api_key") := by
    simp [checkApiKey, hk, pyStr?, hs]
  simp [validateConfig, hck, vfail]

/-- C5 (witness): whitespace-only `api_key` with an invalid `base_url` and an
out-of-range `timeout` still reports `field="api_key"`. -/
theorem c5_witness :
    cfgGet [("api_key", PyValue.pstr "   "), ("base_url", PyValue.pstr "nonsense"),
        ("timeout", PyValue.pint 9999)] "api_key" (PyValue.pstr "") = PyValue.pstr "   " ∧
    pyStrip "   " = "" ∧
    validateConfig AIProvider.deepseek
        [("api_key", PyValue.pstr "   "), ("base_url", PyValue.pstr "nonsense"),
         ("timeout", PyValue.pint 9999)] =
      ⟨false, some (AIProvider.deepseek.value ++ "平台的API密钥为空，请设置有效的API密钥"),
        some "api_key"⟩ :=
  ⟨by decide, by decide,
   c5_empty_api_key_short_circuits AIProvider.deepseek
     [("api_key", PyValue.pstr "   "), ("base_url", PyValue.pstr "nonsense"),
      ("timeout", PyValue.pint 9999)] "   " (by decide) (by decide)⟩

/-- C6: for a provider absent from the configuration mapping,
`simplify_task_async` returns the fixed failure naming the missing
configuration, with `simplified_task` the original task and no `field` key —
and the result does not depend on the adapter oracle `call`, i.e. no adapter
is dispatched and no network call is attempted. -/
theorem c6_unconfigured_no_dispatch (call : AIProvider → String → Config → CallResult)
    (configs : AIProvider → Option Config) (task : String) (p : AIProvider)
    (h : configs p = none) :
    simplify_task_async call configs task p =
      ⟨false, some p.value, task,
        some ("未找到" ++ p.value ++ "平台的配置，请在API配置页面添加配置"), none, none⟩ := by
  simp [simplify_task_async, h]

/-- C6 (witness): an empty store with an arbitrary adapter oracle. -/
theorem c6_witness :
    ((fun _ : AIProvider => (none : Option Config)) AIProvider.claude = none) ∧
    simplify_task_async (fun _ t _ => ⟨true, none, t, none, none, none⟩)
        (fun _ => none) "打开微信" AIProvider.claude =
      ⟨false, some AIProvider.claude.value, "打开微信",
        some ("未找到" ++ AIProvider.claude.value ++ "平台的配置，请在API配置页面添加配置"),
        none, none⟩ :=
  ⟨rfl, c6_unconfigured_no_dispatch (fun _ t _ => ⟨true, none, t, none, none, none⟩)
    (fun _ => none) "打开微信" AIProvider.claude rfl⟩

/-- C7 (code evaluation at the failing input): `get_provider_status` covers
all nine provider tags, but for a configured provider the stored value is the
raw `api_key` value (Python `and` yields its second operand), not a boolean —
here the string `"sk-test"` for deepseek, contradicting the function's own
`Dict[str, bool]` annotation and the claim. -/
theorem c7_provider_status_not_boolean :
    get_provider_status (fun p => match p with
      | AIProvider.deepseek => some [("api_key", PyValue.pstr "sk-test")]
      | _ => none) =
      [("deepseek", PyValue.pstr "sk-test"), ("doubao", PyValue.pbool false),
       ("yuanbao", PyValue.pbool false), ("openai", PyValue.pbool false),
       ("gemini", PyValue.pbool false), ("claude", PyValue.pbool false),
       ("glm", PyValue.pbool false), ("wenxin", PyValue.pbool false),
       ("tongyi", PyValue.pbool false)] := by
  decide

/-- C8: once the `api_key`/`base_url`/`model` checks pass, a failing
`timeout` check is the validator's result; `timeout` 0 and 301 are rejected
as out of range, a non-numeric string is rejected as a format error
(reporting the original value), 30 passes, and a format-error message is
never equal to an out-of-range message. -/
theorem c8_timeout_validation (p : AIProvider) (c : Config)
    (h1 : checkApiKey p c = none) (h2 : checkBaseUrl p c = none)
    (h3 : checkModel p c = none) :
    (∀ r, checkTimeout c = some r → validateConfig p c = r) ∧
    (c.lookup "timeout" = some (PyValue.pint 0) →
      checkTimeout c = some (vfail "超时设置不合理，建议设置1-300秒之间，当前设置: 0秒" "timeout")) ∧
    (c.lookup "timeout" = some (PyValue.pint 301) →
      checkTimeout c = some (vfail "超时设置不合理，建议设置1-300秒之间，当前设置: 301秒" "timeout")) ∧
    (c.lookup "timeout" = some (PyValue.pstr "abc") →
      checkTimeout c = some (vfail "超时设置格式错误，请输入数字，当前设置: abc" "timeout")) ∧
    (c.lookup "timeout" = some (PyValue.pint 30) → checkTimeout c = none) ∧
    (∀ x y, ("超时设置格式错误，请输入数字，当前设置: " ++ x)
        ≠ ("超时设置不合理，建议设置1-300秒之间，当前设置: " ++ y)) := by
  refine ⟨?_, ?_, ?_, ?_, ?_, ?_⟩
  · intro r hr
    simp [validateConfig, h1, h2, h3, hr]
  · intro h
    simp only [checkTimeout, cfgGet, h]
    decide
  · intro h
    simp only [checkTimeout, cfgGet, h]
    decide
  · intro h
    simp only [checkTimeout, cfgGet, h]
    decide
  · intro h
    simp only [checkTimeout, cfgGet, h]
    decide
  · intro x y
    have e1 : "超时设置格式错误，请输入数字，当前设置: "
        = "超时设置格" ++ "式错误，请输入数字，当前设置: " := by decide
    have e2 : "超时设置不合理，建议设置1-300秒之间，当前设置: "
        = "超时设置不" ++ "合理，建议设置1-300秒之间，当前设置: " := by decide
    rw [e1, e2, str_append_assoc, str_append_assoc]
    exact str_append_ne_of_ne _ _ _ _ (by decide) (by decide)

/-- A configuration passing the first three checks, with `timeout = 0`, for
the C8 witness. -/
def c8cfg : Config :=
  [("api_key", PyValue.pstr "k"), ("base_url", PyValue.pstr "https://e.com"),
   ("model", PyValue.pstr "m"), ("timeout", PyValue.pint 0)]

/-- C8 (witness): with `timeout = 0` under provider glm the out-of-range
rejection is the validator's result. -/
theorem c8_witness :
    checkApiKey AIProvider.glm c8cfg = none ∧
    checkBaseUrl AIProvider.glm c8cfg = none ∧
    checkModel AIProvider.glm c8cfg = none ∧
    ((∀ r, checkTimeout c8cfg = some r → validateConfig AIProvider.glm c8cfg = r) ∧
     (c8cfg.lookup "timeout" = some (PyValue.pint 0) →
       checkTimeout c8cfg = some (vfail "超时设置不合理，建议设置1-300秒之间，当前设置: 0秒" "timeout")) ∧
     (c8cfg.lookup "timeout" = some (PyValue.pint 301) →
       checkTimeout c8cfg = some (vfail "超时设置不合理，建议设置1-300秒之间，当前设置: 301秒" "timeout")) ∧
     (c8cfg.lookup "timeout" = some (PyValue.pstr "abc") →
       checkTimeout c8cfg = some (vfail "超时设置格式错误，请输入数字，当前设置: abc" "timeout")) ∧
     (c8cfg.lookup "timeout" = some (PyValue.pint 30) → checkTimeout c8cfg = none) ∧
     (∀ x y, ("超时设置格式错误，请输入数字，当前设置: " ++ x)
         ≠ ("超时设置不合理，建议设置1-300秒之间，当前设置: " ++ y))) :=
  ⟨by decide, by decide, by decide,
   c8_timeout_validation AIProvider.glm c8cfg (by decide) (by decide) (by decide)⟩

/-- C9: when the provider is configured but validation fails,
`simplify_task_async` folds the ValidationResult into a failure CallResult:
`error` and `field` are copied unchanged and `simplified_task` is the
original task description. -/
theorem c9_validation_failure_folded (call : AIProvider → String → Config → CallResult)
    (configs : AIProvider → Option Config) (task : String) (p : AIProvider) (cfg : Config)
    (hc : configs p = some cfg) (hv : (validateConfig p cfg).valid = false) :
    simplify_task_async call configs task p =
      ⟨false, some p.value, task, (validateConfig p cfg).error,
        (validateConfig p cfg).field, none⟩ := by
  simp [simplify_task_async, hc, hv]

/-- C9 (witness): a deepseek config with a malformed key fails validation and
is folded into the returned CallResult, with the task text unchanged. -/
theorem c9_witness :
    ((fun q : AIProvider => if q = AIProvider.deepseek
        then some [("api_key", PyValue.pstr "bad")] else none) AIProvider.deepseek
      = some [("api_key", PyValue.pstr "bad")]) ∧
    (validateConfig AIProvider.deepseek [("api_key", PyValue.pstr "bad")]).valid = false ∧
    simplify_task_async (fun _ t _ => ⟨true, none, t, none, none, none⟩)
        (fun q => if q = AIProvider.deepseek
          then some [("api_key", PyValue.pstr "bad")] else none)
        "整理下载文件夹" AIProvider.deepseek =
      ⟨false, some AIProvider.deepseek.value, "整理下载文件夹",
        (validateConfig AIProvider.deepseek [("api_key", PyValue.pstr "bad")]).error,
        (validateConfig AIProvider.deepseek [("api_key", PyValue.pstr "bad")]).field, none⟩ :=
  ⟨by decide, by decide,
   c9_validation_failure_folded (fun _ t _ => ⟨true, none, t, none, none, none⟩)
     (fun q => if q = AIProvider.deepseek
       then some [("api_key", PyValue.pstr "bad")] else none)
     "整理下载文件夹" AIProvider.deepseek [("api_key", PyValue.pstr "bad")]
     (by decide) (by decide)⟩

/-- C10: `timeout`, `max_tokens` and `temperature` are optional — a missing
key makes the corresponding check substitute the defaults 30, 200 and 0.1 and
pass, and a configuration that passes the `api_key`/`base_url`/`model`
checks and omits all three keys validates to `{"valid": True}`. -/
theorem c10_numeric_fields_optional (p : AIProvider) (c : Config) :
    (c.lookup "timeout" = none → checkTimeout c = none) ∧
    (c.lookup "max_tokens" = none → checkMaxTokens c = none) ∧
    (c.lookup "temperature" = none → checkTemperature c = none) ∧
    (checkApiKey p c = none → checkBaseUrl p c = none → checkModel p c = none →
      c.lookup "timeout" = none → c.lookup "max_tokens" = none →
      c.lookup "temperature" = none → validateConfig p c = ⟨true, none, none⟩) := by
  have t1 : ∀ h : c.lookup "timeout" = none, checkTimeout c = none := by
    intro h
    simp only [checkTimeout, cfgGet, h]
    decide
  have t2 : ∀ h : c.lookup "max_tokens" = none, checkMaxTokens c = none := by
    intro h
    simp only [checkMaxTokens, cfgGet, h]
    decide
  have t3 : ∀ h : c.lookup "temperature" = none, checkTemperature c = none := by
    intro h
    simp only [checkTemperature, cfgGet, h]
    decide
  refine ⟨t1, t2, t3, ?_⟩
  intro h1 h2 h3 h4 h5 h6
  simp [validateConfig, h1, h2, h3, t1 h4, t2 h5, t3 h6]

/-- A configuration with only `api_key`/`base_url`/`model`, for the C10
witness. -/
def c10cfg : Config :=
  [("api_key", PyValue.pstr "k"), ("base_url", PyValue.pstr "http://h"),
   ("model", PyValue.pstr "m")]

/-- C10 (witness): omitting all three numeric keys validates successfully
under the defaults. -/
theorem c10_witness :
    c10cfg.lookup "timeout" = none ∧ c10cfg.lookup "max_tokens" = none ∧
    c10cfg.lookup "temperature" = none ∧ checkApiKey AIProvider.wenxin c10cfg = none ∧
    checkBaseUrl AIProvider.wenxin c10cfg = none ∧ checkModel AIProvider.wenxin c10cfg = none ∧
    validateConfig AIProvider.wenxin c10cfg = ⟨true, none, none⟩ :=
  ⟨by decide, by decide, by decide, by decide, by decide, by decide,
   (c10_numeric_fields_optional AIProvider.wenxin c10cfg).2.2.2
     (by decide) (by decide) (by decide) (by decide) (by decide) (by decide)⟩
